import Mathlib

/-!
Verification of the per-tick update scheduler of `gtsam_tags_node.cpp`
(`LocalizerRunner::Update` and `main`).

Shallow embedding notes:
* All timestamps in the source are `uint64_t` microsecond counts that are only
  compared and maxed, never added, so they are modelled as `Nat` (no overflow
  is possible under comparison/max).
* Opaque payloads (pose, noise, twist, tag measurements, tag layouts) are
  modelled as `Nat` identifiers: the scheduler never inspects them, it only
  forwards them to external collaborators.
* Calls into external collaborators (`Localizer`, `DataPublisher`,
  `TagModel::SetLayout`, `Localizer::Print`) are recorded as an event trace.
* `Localizer::Optimize` may throw; whether it does on a given tick is an
  input (`optimizeFails`), since the estimator is an external collaborator.
* The backlog replay loop in the source (lines 129-135) does
  `for (const auto &it : tooNewCameraObservations) { if (it.timeUs <=
  lastOdomTimestamp) { tooNewCameraObservations.pop_front(); AddTagObservation(it); } }`:
  a range-for over a `std::deque` that `pop_front`s while iterating.  We model
  the range-for as iterating the snapshot of the deque taken at loop entry
  while each `pop_front` removes the front of the live deque, which is the
  concrete behaviour of the scan (the iterator walks the original elements,
  the pops shorten the container from the front).
-/

/-- An odometry sample (`timeUs` plus an opaque motion delta). -/
structure OdomSample where
  timeUs : Nat
  twist : Nat
  deriving DecidableEq, Repr

/-- A camera vision observation (`CameraVisionObservation` in the source). -/
structure CameraVisionObservation where
  timeUs : Nat
  meas : Nat
  deriving DecidableEq, Repr

/-- A pose prior delivered by the configuration source (pose, noise, time). -/
structure PosePrior where
  pose : Nat
  noise : Nat
  time : Nat
  deriving DecidableEq, Repr

/-- A call made by the scheduler into an external collaborator during a tick. -/
inductive Event where
  | reset (pose noise time : Nat)
  | setLayout (layout : Nat)
  | addOdometry (s : OdomSample)
  | addTag (o : CameraVisionObservation)
  | optimize
  | publish
  | flush
  | printDiag
  deriving DecidableEq, Repr

/-- How a call to `Update` returns: normally, via the not-ready backoff
   (`sleep_for(1000ms); return;`), or by rethrowing the optimize failure. -/
inductive TickOutcome where
  | normal
  | notReady
  | threw
  deriving DecidableEq, Repr

/-- Per-tick input from one camera listener: its `ReadyToOptimize()` flag and
   the observations its `Update()` would return (consumed only when ready). -/
structure CamInput where
  ready : Bool
  obs : List CameraVisionObservation
  deriving DecidableEq, Repr

/-- Everything the external collaborators supply to one call of `Update`. -/
structure TickInput where
  prior : Option PosePrior
  layout : Option Nat
  odom : List OdomSample
  cams : List CamInput
  optimizeFails : Bool
  deriving DecidableEq, Repr

/-- The scheduler state that persists across ticks: `gotInitialGuess`,
   `lastOdomTimestamp`, and the `tooNewCameraObservations` deque. -/
structure RunnerState where
  gotInitialGuess : Bool
  lastOdomTimestamp : Nat
  backlog : List CameraVisionObservation
  deriving DecidableEq, Repr

/-- Result of one call of `Update`. -/
structure TickResult where
  state : RunnerState
  events : List Event
  outcome : TickOutcome
  deriving DecidableEq, Repr

/-- Source lines 80-93: consume `NewPosePrior()` (Reset only when
   `prior && !gotInitialGuess`), then `NewTagLayout()` (install layout and
   clear `gotInitialGuess`).  Returns the updated flag and the calls made. -/
def configPhase (gig : Bool) (prior : Option PosePrior) (layout : Option Nat) :
    Bool × List Event :=
  let step1 : Bool × List Event :=
    match prior with
    | some p => if gig then (gig, []) else (true, [Event.reset p.pose p.noise p.time])
    | none => (gig, [])
  match layout with
  | some l => (false, step1.2 ++ [Event.setLayout l])
  | none => step1

/-- Source lines 99-103: for each sample, `lastOdomTimestamp =
   lastOdomTimestamp < it.timeUs ? it.timeUs : lastOdomTimestamp` then
   `AddOdometry(it)`.  Returns the final watermark and the calls made. -/
def odomPhase (w : Nat) : List OdomSample → Nat × List Event
  | [] => (w, [])
  | o :: rest =>
    let w1 := if w < o.timeUs then o.timeUs else w
    let r := odomPhase w1 rest
    (r.1, Event.addOdometry o :: r.2)

/-- Source lines 117-125: a freshly pulled observation is buffered
   (`push_back`) when `it.timeUs > lastOdomTimestamp`, otherwise delivered via
   `AddTagObservation(it)`.  The accumulator is (backlog, events so far). -/
def admitObs (w : Nat) (acc : List CameraVisionObservation × List Event)
    (o : CameraVisionObservation) : List CameraVisionObservation × List Event :=
  if w < o.timeUs then (acc.1 ++ [o], acc.2)
  else (acc.1, acc.2 ++ [Event.addTag o])

/-- Source lines 129-135: the backlog scan.  The first list argument is the
   snapshot of the deque being iterated, the second the live deque;
   whenever the iterated entry is eligible (`it.timeUs <= lastOdomTimestamp`)
   the live deque is `pop_front`ed and the iterated entry is delivered.
   Returns the final deque and the `AddTagObservation` calls made. -/
def replayScan (w : Nat) :
    List CameraVisionObservation → List CameraVisionObservation →
    List CameraVisionObservation × List Event
  | [], deq => (deq, [])
  | o :: rest, deq =>
    if o.timeUs ≤ w then
      let r := replayScan w rest deq.tail
      (r.1, Event.addTag o :: r.2)
    else
      replayScan w rest deq

/-- Source lines 108-136: one iteration of the camera loop.  The accumulator
   is (readyToOptimize, backlog, events so far).  `ReadyToOptimize()` is
   and-ed in; observations are pulled only when ready; the backlog scan runs
   on every iteration. -/
def processCam (w : Nat) (acc : Bool × List CameraVisionObservation × List Event)
    (c : CamInput) : Bool × List CameraVisionObservation × List Event :=
  let rto := acc.1 && c.ready
  let fresh :=
    if c.ready then List.foldl (admitObs w) (acc.2.1, []) c.obs
    else (acc.2.1, [])
  let scanned := replayScan w fresh.1 fresh.1
  (rto, scanned.1, acc.2.2 ++ fresh.2 ++ scanned.2)

/-- The readiness flag and event list after the config phase of a tick. -/
def postConfig (s : RunnerState) (inp : TickInput) : Bool × List Event :=
  configPhase s.gotInitialGuess inp.prior inp.layout

/-- The watermark and event list after the odometry phase of a tick. -/
def postOdom (s : RunnerState) (inp : TickInput) : Nat × List Event :=
  odomPhase s.lastOdomTimestamp inp.odom

/-- The (readyToOptimize, backlog, events) triple after the camera loop:
   `readyToOptimize` starts as `true && gotInitialGuess` (lines 78 and 95)
   and each camera's readiness is and-ed in. -/
def postCams (s : RunnerState) (inp : TickInput) :
    Bool × List CameraVisionObservation × List Event :=
  List.foldl (processCam (postOdom s inp).1) ((postConfig s inp).1, s.backlog, []) inp.cams

/-- The scheduler state at the end of a tick. -/
def tickState (s : RunnerState) (inp : TickInput) : RunnerState :=
  ⟨(postConfig s inp).1, (postOdom s inp).1, (postCams s inp).2.1⟩

/-- All collaborator calls made before the optimize step of a tick. -/
def baseEvents (s : RunnerState) (inp : TickInput) : List Event :=
  (postConfig s inp).2 ++ (postOdom s inp).2 ++ (postCams s inp).2.2

/-- Source lines 138-155: when not ready the tick backs off; otherwise
   `Optimize()` is called, then on success `dataPublisher.Update()` and
   `Flush()`, and on failure `Print()` (the diagnostic dump) before rethrow. -/
def tailEvents (s : RunnerState) (inp : TickInput) : List Event :=
  if (postCams s inp).1 then
    if inp.optimizeFails then [Event.optimize, Event.printDiag]
    else [Event.optimize, Event.publish, Event.flush]
  else []

/-- How the tick returns (see `tailEvents`). -/
def tickOutcome (s : RunnerState) (inp : TickInput) : TickOutcome :=
  if (postCams s inp).1 then
    if inp.optimizeFails then TickOutcome.threw else TickOutcome.normal
  else TickOutcome.notReady

/-- One call of `LocalizerRunner::Update` (source lines 76-156). -/
def Update (s : RunnerState) (inp : TickInput) : TickResult :=
  ⟨tickState s inp, baseEvents s inp ++ tailEvents s inp, tickOutcome s inp⟩

/-- The aggregate-readiness value a tick computes: `gotInitialGuess` after the
   config phase and-ed with every camera's `ReadyToOptimize()`. -/
def aggregateReady (s : RunnerState) (inp : TickInput) : Bool :=
  (postConfig s inp).1 && inp.cams.all (fun c => c.ready)

/-- Scheduler state after a sequence of ticks. -/
def runState (s : RunnerState) : List TickInput → RunnerState
  | [] => s
  | i :: rest => runState (Update s i).state rest

/-- Outcomes of a sequence of ticks. -/
def runOutcomes (s : RunnerState) : List TickInput → List TickOutcome
  | [] => []
  | i :: rest => (Update s i).outcome :: runOutcomes (Update s i).state rest

/-- Concatenated collaborator calls of a sequence of ticks. -/
def runAllEvents (s : RunnerState) : List TickInput → List Event
  | [] => []
  | i :: rest => (Update s i).events ++ runAllEvents (Update s i).state rest

/-- All odometry timestamps carried by a sequence of tick inputs, in order. -/
def odomTimestamps : List TickInput → List Nat
  | [] => []
  | i :: rest => i.odom.map (fun o => o.timeUs) ++ odomTimestamps rest

/-- Source lines 159-168: `main`'s argument dispatch, modelled on the argument
   list after the program name (`argc == 1` means no arguments).  `Except.ok`
   carries the configuration path the tick loop would then run with;
   `Except.error` carries the process exit status returned before the tick
   loop is ever entered. -/
def mainStartup : List String → Except Int String
  | [] => Except.ok "test/resources/simulator.json"
  | [p] => Except.ok p
  | _ :: _ :: _ => Except.error (-1)

/-- Extracts the argument triple of a `Reset` call from an event. -/
def resetEx : Event → Option (Nat × Nat × Nat)
  | Event.reset p n t => some (p, n, t)
  | _ => none

/-- Extracts the sample of an `AddOdometry` call from an event. -/
def odoEx : Event → Option OdomSample
  | Event.addOdometry o => some o
  | _ => none

/-- True of the events emitted before the optimize step (config, odometry and
   camera phases); false of optimize/publish/flush/print events. -/
def isCoreEvent : Event → Bool
  | Event.optimize => false
  | Event.publish => false
  | Event.flush => false
  | Event.printDiag => false
  | _ => true

/-- A backlog entry that is eligible at watermark 200. -/
def obs100 : CameraVisionObservation := ⟨100, 11⟩

/-- A backlog entry that is still ineligible at watermark 200. -/
def obs300 : CameraVisionObservation := ⟨300, 10⟩

/-- Fresh scheduler state (matches the member initializers of the source). -/
def bugStart : RunnerState := ⟨false, 0, []⟩

/-- Tick 1 of the backlog-mismatch run: a prior arrives, odometry reaches 50,
   and the camera pulls two observations that both get buffered. -/
def bugTick1 : TickInput := ⟨some ⟨1, 2, 40⟩, none, [⟨50, 0⟩], [⟨true, [obs300, obs100]⟩], false⟩

/-- Tick 2 of the backlog-mismatch run: odometry raises the watermark to 200,
   making only the second buffered entry eligible. -/
def bugTick2 : TickInput := ⟨none, none, [⟨200, 0⟩], [⟨true, []⟩], false⟩

/-- Tick 3 of the backlog-mismatch run: odometry raises the watermark to 400,
   past both buffered timestamps. -/
def bugTick3 : TickInput := ⟨none, none, [⟨400, 0⟩], [⟨true, []⟩], false⟩

/-- The three-tick backlog-mismatch run. -/
def bugTicks : List TickInput := [bugTick1, bugTick2, bugTick3]

/-- Fresh scheduler state, used by several witnesses. -/
def wState : RunnerState := ⟨false, 0, []⟩

/-- A state that already has an initial guess. -/
def rdyState : RunnerState := ⟨true, 0, []⟩

/-- An observation below the watermark reached by rdyTick. -/
def wObs : CameraVisionObservation := ⟨30, 1⟩

/-- A tick with odometry up to 50 and one immediately admissible observation. -/
def rdyTick : TickInput := ⟨none, none, [⟨50, 0⟩], [⟨true, [wObs]⟩], false⟩

/-- A tick on which the configuration source returns a fresh pose prior. -/
def priorTick : TickInput := ⟨some ⟨5, 6, 7⟩, none, [], [], false⟩

/-- A tick whose only camera reports not ready. -/
def notReadyTick : TickInput := ⟨none, none, [], [⟨false, []⟩], false⟩

/-- A ready tick on which the estimator's Optimize throws. -/
def failTick : TickInput := ⟨none, none, [], [⟨true, []⟩], true⟩

/-- A tick on which a new marker layout is installed. -/
def layoutTick : TickInput := ⟨none, some 3, [], [⟨true, []⟩], false⟩

/-- A ready-camera tick with no configuration change at all. -/
def noPriorTick : TickInput := ⟨none, none, [], [⟨true, []⟩], false⟩

/-- A tick on which a new prior and a new layout arrive together. -/
def bothTick : TickInput := ⟨some ⟨5, 6, 7⟩, some 9, [], [⟨true, []⟩], false⟩

/-- A state with an initial guess already present (for the C3 counterexample). -/
def c3State : RunnerState := ⟨true, 0, []⟩

lemma max_step (w t : Nat) : (if w < t then t else w) = max w t := by
  split <;> omega

lemma odomPhase_spec (l : List OdomSample) :
    ∀ w, odomPhase w l =
      (List.foldl (fun a o => max a o.timeUs) w l, l.map Event.addOdometry) := by
  induction l with
  | nil => intro w; rfl
  | cons o rest ih => intro w; simp [odomPhase, max_step, ih]

lemma tick_w_eq (s : RunnerState) (inp : TickInput) :
    (Update s inp).state.lastOdomTimestamp
      = List.foldl max s.lastOdomTimestamp (inp.odom.map (fun o => o.timeUs)) := by
  show (postOdom s inp).1 = _
  simp [postOdom, odomPhase_spec, List.foldl_map]

lemma le_foldl_max (l : List Nat) : ∀ a : Nat, a ≤ List.foldl max a l := by
  induction l with
  | nil => intro a; simp
  | cons t rest ih =>
    intro a
    calc a ≤ max a t := Nat.le_max_left a t
    _ ≤ List.foldl max (max a t) rest := ih (max a t)

lemma runState_append (s : RunnerState) (ins : List TickInput) (i : TickInput) :
    runState s (ins ++ [i]) = (Update (runState s ins) i).state := by
  induction ins generalizing s with
  | nil => rfl
  | cons j rest ih => simp [runState, ih]

lemma runState_w (s : RunnerState) (ins : List TickInput) :
    (runState s ins).lastOdomTimestamp
      = List.foldl max s.lastOdomTimestamp (odomTimestamps ins) := by
  induction ins generalizing s with
  | nil => simp [runState, odomTimestamps]
  | cons i rest ih =>
    simp only [runState, odomTimestamps, List.foldl_append]
    rw [ih, tick_w_eq]

lemma configPhase_fst (g : Bool) (p : Option PosePrior) (l : Option Nat) :
    (configPhase g p l).1 = if l.isSome then false else (g || p.isSome) := by
  cases p <;> cases l <;> cases g <;> simp [configPhase]

lemma configPhase_snd (g : Bool) (p : Option PosePrior) (l : Option Nat) :
    (configPhase g p l).2 =
      (match p with
       | some pr => if g then [] else [Event.reset pr.pose pr.noise pr.time]
       | none => []) ++
      (match l with
       | some lay => [Event.setLayout lay]
       | none => []) := by
  cases p <;> cases l <;> cases g <;> simp [configPhase]

lemma processCam_fst (w : Nat) (acc : Bool × List CameraVisionObservation × List Event)
    (c : CamInput) : (processCam w acc c).1 = (acc.1 && c.ready) := rfl

lemma camFold_fst (w : Nat) (cams : List CamInput) :
    ∀ acc : Bool × List CameraVisionObservation × List Event,
      (List.foldl (processCam w) acc cams).1 = (acc.1 && cams.all (fun c => c.ready)) := by
  induction cams with
  | nil => intro acc; simp
  | cons c rest ih =>
    intro acc
    rw [List.foldl_cons, ih, processCam_fst, List.all_cons, Bool.and_assoc]

lemma postCams_fst (s : RunnerState) (inp : TickInput) :
    (postCams s inp).1 = aggregateReady s inp := by
  simp [postCams, aggregateReady, camFold_fst]

lemma admitObs_fold_spec (w : Nat) (obs : List CameraVisionObservation) :
    ∀ bl evs, List.foldl (admitObs w) (bl, evs) obs =
      (bl ++ obs.filter (fun o => w < o.timeUs),
       evs ++ (obs.filter (fun o => o.timeUs ≤ w)).map Event.addTag) := by
  induction obs with
  | nil => intro bl evs; simp
  | cons o rest ih =>
    intro bl evs
    by_cases h : w < o.timeUs
    · simp [List.foldl_cons, admitObs, h, ih, Nat.not_le.mpr h]
    · simp [List.foldl_cons, admitObs, h, ih, Nat.not_lt.mp h]

lemma replayScan_events (w : Nat) (snap : List CameraVisionObservation) :
    ∀ deq e, e ∈ (replayScan w snap deq).2 →
      ∃ o, e = Event.addTag o ∧ o.timeUs ≤ w := by
  induction snap with
  | nil => intro deq e h; simp [replayScan] at h
  | cons o rest ih =>
    intro deq e h
    by_cases hle : o.timeUs ≤ w
    · simp [replayScan, hle] at h
      rcases h with h | h
      · exact ⟨o, h, hle⟩
      · exact ih _ _ h
    · simp [replayScan, hle] at h
      exact ih _ _ h

lemma camFold_events (w : Nat) (cams : List CamInput) :
    ∀ acc e, e ∈ (List.foldl (processCam w) acc cams).2.2 →
      e ∈ acc.2.2 ∨ ∃ o, e = Event.addTag o ∧ o.timeUs ≤ w := by
  induction cams with
  | nil => intro acc e h; exact Or.inl h
  | cons c rest ih =>
    intro acc e h
    rcases ih (processCam w acc c) e h with h2 | h2
    · simp only [processCam, List.mem_append] at h2
      rcases h2 with (h3 | h3) | h3
      · exact Or.inl h3
      · by_cases hr : c.ready
        · rw [if_pos hr, admitObs_fold_spec] at h3
          simp only [List.mem_append, List.mem_map, List.mem_filter] at h3
          rcases h3 with h4 | ⟨o, ⟨_, ho⟩, rfl⟩
          · simp at h4
          · exact Or.inr ⟨o, rfl, by simpa using ho⟩
        · rw [if_neg hr] at h3
          simp at h3
      · right
        exact replayScan_events w _ _ e h3
    · exact Or.inr h2

lemma postOdom_snd (s : RunnerState) (inp : TickInput) :
    (postOdom s inp).2 = inp.odom.map Event.addOdometry := by
  simp [postOdom, odomPhase_spec]

lemma configPhase_no_tag (g : Bool) (p : Option PosePrior) (l : Option Nat)
    (o : CameraVisionObservation) : Event.addTag o ∉ (configPhase g p l).2 := by
  cases p <;> cases l <;> cases g <;> simp [configPhase]

lemma configPhase_core (g : Bool) (p : Option PosePrior) (l : Option Nat)
    (e : Event) (h : e ∈ (configPhase g p l).2) : isCoreEvent e = true := by
  cases p <;> cases l <;> cases g <;> simp [configPhase] at h <;>
    rcases h with rfl | rfl <;> rfl

lemma configPhase_resetEvs (g : Bool) (p : Option PosePrior) (l : Option Nat) :
    List.filterMap resetEx (configPhase g p l).2 =
      (match p with
       | some pr => if g then [] else [(pr.pose, pr.noise, pr.time)]
       | none => []) := by
  cases p <;> cases l <;> cases g <;> simp [configPhase, resetEx]

lemma configPhase_odoEvs (g : Bool) (p : Option PosePrior) (l : Option Nat) :
    List.filterMap odoEx (configPhase g p l).2 = [] := by
  cases p <;> cases l <;> cases g <;> simp [configPhase, odoEx]

lemma baseEvents_tag (s : RunnerState) (inp : TickInput) (o : CameraVisionObservation)
    (h : Event.addTag o ∈ baseEvents s inp) : o.timeUs ≤ (postOdom s inp).1 := by
  simp only [baseEvents, List.mem_append] at h
  rcases h with (h | h) | h
  · exact absurd h (configPhase_no_tag s.gotInitialGuess inp.prior inp.layout o)
  · rw [postOdom_snd] at h
    simp at h
  · simp only [postCams] at h
    rcases camFold_events _ inp.cams _ _ h with h2 | h2
    · simp at h2
    · rcases h2 with ⟨o2, heq, hle⟩
      injection heq with h3
      rw [h3]
      exact hle

lemma baseEvents_core (s : RunnerState) (inp : TickInput) (e : Event)
    (h : e ∈ baseEvents s inp) : isCoreEvent e = true := by
  simp only [baseEvents, List.mem_append] at h
  rcases h with (h | h) | h
  · exact configPhase_core s.gotInitialGuess inp.prior inp.layout e h
  · rw [postOdom_snd] at h
    rcases List.mem_map.mp h with ⟨o, _, rfl⟩
    rfl
  · simp only [postCams] at h
    rcases camFold_events _ inp.cams _ _ h with h2 | h2
    · simp at h2
    · rcases h2 with ⟨o, rfl, _⟩
      rfl

lemma baseEvents_no_optimize (s : RunnerState) (inp : TickInput) :
    Event.optimize ∉ baseEvents s inp := by
  intro h
  have := baseEvents_core s inp _ h
  simp [isCoreEvent] at this

lemma baseEvents_no_publish (s : RunnerState) (inp : TickInput) :
    Event.publish ∉ baseEvents s inp := by
  intro h
  have := baseEvents_core s inp _ h
  simp [isCoreEvent] at this

lemma baseEvents_odoEvs (s : RunnerState) (inp : TickInput) :
    List.filterMap odoEx (baseEvents s inp) = inp.odom := by
  simp only [baseEvents, List.filterMap_append]
  rw [show (postConfig s inp).2 = (configPhase s.gotInitialGuess inp.prior inp.layout).2 from rfl,
    configPhase_odoEvs, postOdom_snd]
  have hcam : List.filterMap odoEx (postCams s inp).2.2 = [] := by
    rw [List.filterMap_eq_nil_iff]
    intro e he
    simp only [postCams] at he
    rcases camFold_events _ inp.cams _ _ he with h2 | h2
    · simp at h2
    · rcases h2 with ⟨o, rfl, _⟩
      rfl
  rw [hcam, List.filterMap_map, show odoEx ∘ Event.addOdometry = some from rfl]
  simp

lemma baseEvents_resetEvs (s : RunnerState) (inp : TickInput) :
    List.filterMap resetEx (baseEvents s inp) =
      (match inp.prior with
       | some pr => if s.gotInitialGuess then [] else [(pr.pose, pr.noise, pr.time)]
       | none => []) := by
  simp only [baseEvents, List.filterMap_append]
  have hcam : List.filterMap resetEx (postCams s inp).2.2 = [] := by
    rw [List.filterMap_eq_nil_iff]
    intro e he
    simp only [postCams] at he
    rcases camFold_events _ inp.cams _ _ he with h2 | h2
    · simp at h2
    · rcases h2 with ⟨o, rfl, _⟩
      rfl
  have hodo : List.filterMap resetEx (postOdom s inp).2 = [] := by
    rw [postOdom_snd, List.filterMap_eq_nil_iff]
    intro e he
    rcases List.mem_map.mp he with ⟨o, _, rfl⟩
    rfl
  rw [hcam, hodo,
    show (postConfig s inp).2 = (configPhase s.gotInitialGuess inp.prior inp.layout).2 from rfl,
    configPhase_resetEvs]
  simp

lemma tailEvents_no_tag (s : RunnerState) (inp : TickInput)
    (o : CameraVisionObservation) : Event.addTag o ∉ tailEvents s inp := by
  simp only [tailEvents]
  split
  · split <;> simp
  · simp

lemma tailEvents_resetEvs (s : RunnerState) (inp : TickInput) :
    List.filterMap resetEx (tailEvents s inp) = [] := by
  simp only [tailEvents]
  split
  · split <;> simp [resetEx]
  · simp

lemma tailEvents_odoEvs (s : RunnerState) (inp : TickInput) :
    List.filterMap odoEx (tailEvents s inp) = [] := by
  simp only [tailEvents]
  split
  · split <;> simp [odoEx]
  · simp

lemma tailEvents_empty (s : RunnerState) (inp : TickInput)
    (h : aggregateReady s inp = false) : tailEvents s inp = [] := by
  simp [tailEvents, postCams_fst, h]

lemma tailEvents_ready_fail (s : RunnerState) (inp : TickInput)
    (h : aggregateReady s inp = true) (hf : inp.optimizeFails = true) :
    tailEvents s inp = [Event.optimize, Event.printDiag] := by
  simp [tailEvents, postCams_fst, h, hf]

lemma tailEvents_ready_ok (s : RunnerState) (inp : TickInput)
    (h : aggregateReady s inp = true) (hf : inp.optimizeFails = false) :
    tailEvents s inp = [Event.optimize, Event.publish, Event.flush] := by
  simp [tailEvents, postCams_fst, h, hf]

lemma tickOutcome_notReady (s : RunnerState) (inp : TickInput)
    (h : aggregateReady s inp = false) :
    (Update s inp).outcome = TickOutcome.notReady := by
  show tickOutcome s inp = TickOutcome.notReady
  simp [tickOutcome, postCams_fst, h]

lemma tickOutcome_ready_fail (s : RunnerState) (inp : TickInput)
    (h : aggregateReady s inp = true) (hf : inp.optimizeFails = true) :
    (Update s inp).outcome = TickOutcome.threw := by
  show tickOutcome s inp = TickOutcome.threw
  simp [tickOutcome, postCams_fst, h, hf]

lemma tickOutcome_ready_ok (s : RunnerState) (inp : TickInput)
    (h : aggregateReady s inp = true) (hf : inp.optimizeFails = false) :
    (Update s inp).outcome = TickOutcome.normal := by
  show tickOutcome s inp = TickOutcome.normal
  simp [tickOutcome, postCams_fst, h, hf]

lemma noGig_tick (s : RunnerState) (inp : TickInput) (hg : s.gotInitialGuess = false)
    (hp : inp.prior = none) :
    (Update s inp).outcome = TickOutcome.notReady ∧
      (Update s inp).state.gotInitialGuess = false := by
  have hcfg : (postConfig s inp).1 = false := by
    rw [show (postConfig s inp).1 = (configPhase s.gotInitialGuess inp.prior inp.layout).1 from rfl,
      configPhase_fst, hg, hp]
    cases inp.layout <;> simp
  constructor
  · apply tickOutcome_notReady
    simp [aggregateReady, hcfg]
  · exact hcfg

lemma layout_tick (s : RunnerState) (inp : TickInput) (hl : inp.layout.isSome = true) :
    (Update s inp).outcome = TickOutcome.notReady ∧
      (Update s inp).state.gotInitialGuess = false := by
  have hcfg : (postConfig s inp).1 = false := by
    rw [show (postConfig s inp).1 = (configPhase s.gotInitialGuess inp.prior inp.layout).1 from rfl,
      configPhase_fst, hl]
    rfl
  constructor
  · apply tickOutcome_notReady
    simp [aggregateReady, hcfg]
  · exact hcfg

lemma noGig_run (ins : List TickInput) :
    ∀ s : RunnerState, s.gotInitialGuess = false → (∀ i ∈ ins, i.prior = none) →
      ∀ o ∈ runOutcomes s ins, o = TickOutcome.notReady := by
  induction ins with
  | nil => intro s _ _ o ho; simp [runOutcomes] at ho
  | cons i rest ih =>
    intro s hg hins o ho
    have hi := hins i (List.mem_cons_self i rest)
    have step := noGig_tick s i hg hi
    simp only [runOutcomes, List.mem_cons] at ho
    rcases ho with rfl | ho
    · exact step.1
    · exact ih _ step.2 (fun j hj => hins j (List.mem_cons_of_mem i hj)) o ho

/-- Claim C1.  The spec requires that on each replay scan exactly the set of
eligible backlog entries (timestamp at most the watermark) is admitted and
removed, each exactly once.  The code violates this: the scan pops the front
of the deque whenever the iterated entry is eligible, so with backlog
entries at timestamps 300 and 100 and watermark 200 it removes the
ineligible entry at 300 (which is then never delivered although the
watermark later reaches 400) while the admitted entry at 100 stays buffered
and is delivered a second time on the next tick. -/
theorem c1_backlog_mismatch :
    (runState bugStart bugTicks).lastOdomTimestamp = 400 ∧
    (runState bugStart bugTicks).backlog = [] ∧
    List.count (Event.addTag obs100) (runAllEvents bugStart bugTicks) = 2 ∧
    Event.addTag obs300 ∉ runAllEvents bugStart bugTicks := by
  decide

/-- Claim C2.  No AddTagObservation call of a tick carries a timestamp above
the watermark at the moment of the call (the watermark is fixed before the
camera loop and equals the end-of-tick watermark), and a freshly pulled
observation with timestamp above the watermark is appended to the backlog
while any other is delivered. -/
theorem c2_no_future_delivery (s : RunnerState) (inp : TickInput) :
    (∀ o, Event.addTag o ∈ (Update s inp).events →
      o.timeUs ≤ (Update s inp).state.lastOdomTimestamp) ∧
    (∀ bl evs obs, List.foldl (admitObs (postOdom s inp).1) (bl, evs) obs =
      (bl ++ obs.filter (fun o => (postOdom s inp).1 < o.timeUs),
       evs ++ (obs.filter (fun o => o.timeUs ≤ (postOdom s inp).1)).map Event.addTag)) := by
  constructor
  · intro o h
    rcases List.mem_append.mp h with h | h
    · exact baseEvents_tag s inp o h
    · exact absurd h (tailEvents_no_tag s inp o)
  · intro bl evs obs
    exact admitObs_fold_spec (postOdom s inp).1 obs bl evs

/-- Witness for C2: on a concrete ready tick the observation at timestamp 30
is delivered and indeed lies below the final watermark 50. -/
theorem c2_no_future_delivery_witness :
    Event.addTag wObs ∈ (Update wState rdyTick).events ∧
      wObs.timeUs ≤ (Update wState rdyTick).state.lastOdomTimestamp :=
  ⟨by decide, (c2_no_future_delivery wState rdyTick).1 wObs (by decide)⟩

/-- Counterexample to claim C3 as stated: on a tick where the configuration
source returns a new pose prior while an initial guess is already present,
no Reset call is made at all. -/
theorem c3_counterexample :
    priorTick.prior = some ⟨5, 6, 7⟩ ∧
      List.filterMap resetEx (Update c3State priorTick).events = [] := by
  decide

/-- Claim C3 (amended).  Reset is invoked with the prior's pose, uncertainty
and timestamp exactly on ticks where a new pose prior arrives while
gotInitialGuess is false; and when no layout change occurs on the tick,
gotInitialGuess afterwards is its old value or-ed with the presence of a
prior (in particular it is set true when a prior is consumed and applied). -/
theorem c3_reset_policy (s : RunnerState) (inp : TickInput) :
    List.filterMap resetEx (Update s inp).events =
      (match inp.prior with
       | some pr => if s.gotInitialGuess then [] else [(pr.pose, pr.noise, pr.time)]
       | none => []) ∧
    (inp.layout = none →
      (Update s inp).state.gotInitialGuess = (s.gotInitialGuess || inp.prior.isSome)) := by
  constructor
  · show List.filterMap resetEx (baseEvents s inp ++ tailEvents s inp) = _
    rw [List.filterMap_append, baseEvents_resetEvs, tailEvents_resetEvs, List.append_nil]
  · intro hl
    show (postConfig s inp).1 = _
    rw [show (postConfig s inp).1
        = (configPhase s.gotInitialGuess inp.prior inp.layout).1 from rfl,
      configPhase_fst, hl]
    rfl

/-- Witness for C3 (amended): from a fresh state, the concrete prior tick
produces exactly one Reset call with the prior's data and sets
gotInitialGuess. -/
theorem c3_reset_policy_witness :
    List.filterMap resetEx (Update wState priorTick).events = [(5, 6, 7)] ∧
      (Update wState priorTick).state.gotInitialGuess
        = (wState.gotInitialGuess || priorTick.prior.isSome) :=
  ⟨by have h := (c3_reset_policy wState priorTick).1; simpa using h,
   (c3_reset_policy wState priorTick).2 rfl⟩

/-- Claim C4.  Across any run of ticks the watermark equals the running
maximum of its initial value and every odometry sample timestamp seen, and
it never decreases when a further tick is appended. -/
theorem c4_watermark (s : RunnerState) (ins : List TickInput) (i : TickInput) :
    (runState s ins).lastOdomTimestamp
        = List.foldl max s.lastOdomTimestamp (odomTimestamps ins) ∧
      (runState s ins).lastOdomTimestamp
        ≤ (runState s (ins ++ [i])).lastOdomTimestamp := by
  refine ⟨runState_w s ins, ?_⟩
  rw [runState_append, tick_w_eq]
  exact le_foldl_max _ _

/-- Claim C5.  The Optimize call and the publisher's Update run only when
gotInitialGuess (after the config phase) and every camera's readiness flag
hold; otherwise the tick ends not ready and makes neither call. -/
theorem c5_readiness_gate (s : RunnerState) (inp : TickInput) :
    (aggregateReady s inp = false →
      (Update s inp).outcome = TickOutcome.notReady ∧
      Event.optimize ∉ (Update s inp).events ∧
      Event.publish ∉ (Update s inp).events) ∧
    (aggregateReady s inp = true →
      Event.optimize ∈ (Update s inp).events ∧
      (Update s inp).outcome ≠ TickOutcome.notReady ∧
      (inp.optimizeFails = false → Event.publish ∈ (Update s inp).events)) := by
  constructor
  · intro h
    refine ⟨tickOutcome_notReady s inp h, ?_, ?_⟩
    · show Event.optimize ∉ baseEvents s inp ++ tailEvents s inp
      rw [tailEvents_empty s inp h, List.append_nil]
      exact baseEvents_no_optimize s inp
    · show Event.publish ∉ baseEvents s inp ++ tailEvents s inp
      rw [tailEvents_empty s inp h, List.append_nil]
      exact baseEvents_no_publish s inp
  · intro h
    cases hf : inp.optimizeFails
    · refine ⟨?_, ?_, fun _ => ?_⟩
      · show Event.optimize ∈ baseEvents s inp ++ tailEvents s inp
        rw [tailEvents_ready_ok s inp h hf]
        simp
      · rw [tickOutcome_ready_ok s inp h hf]
        simp
      · show Event.publish ∈ baseEvents s inp ++ tailEvents s inp
        rw [tailEvents_ready_ok s inp h hf]
        simp
    · refine ⟨?_, ?_, fun hf2 => ?_⟩
      · show Event.optimize ∈ baseEvents s inp ++ tailEvents s inp
        rw [tailEvents_ready_fail s inp h hf]
        simp
      · rw [tickOutcome_ready_fail s inp h hf]
        simp
      · simp [hf] at hf2

/-- Witness for C5: a concrete tick whose camera is not ready ends with the
backoff and performs neither Optimize nor a publish. -/
theorem c5_readiness_gate_witness :
    (Update wState notReadyTick).outcome = TickOutcome.notReady ∧
      Event.optimize ∉ (Update wState notReadyTick).events ∧
      Event.publish ∉ (Update wState notReadyTick).events :=
  (c5_readiness_gate wState notReadyTick).1 (by decide)

/-- Claim C6.  On a ready tick whose Optimize fails, the publisher is never
invoked, Optimize is attempted exactly once (no retry), and the tick ends by
propagating the failure after the diagnostic dump: the trace ends with the
single Optimize call followed by the Print call. -/
theorem c6_optimize_failure (s : RunnerState) (inp : TickInput)
    (hr : aggregateReady s inp = true) (hf : inp.optimizeFails = true) :
    (Update s inp).outcome = TickOutcome.threw ∧
    Event.publish ∉ (Update s inp).events ∧
    List.count Event.optimize (Update s inp).events = 1 ∧
    (Update s inp).events = baseEvents s inp ++ [Event.optimize, Event.printDiag] := by
  have hev : (Update s inp).events = baseEvents s inp ++ [Event.optimize, Event.printDiag] := by
    show baseEvents s inp ++ tailEvents s inp = _
    rw [tailEvents_ready_fail s inp hr hf]
  refine ⟨tickOutcome_ready_fail s inp hr hf, ?_, ?_, hev⟩
  · rw [hev]
    intro h
    rcases List.mem_append.mp h with h | h
    · exact baseEvents_no_publish s inp h
    · simp at h
  · rw [hev, List.count_append]
    rw [List.count_eq_zero.mpr (baseEvents_no_optimize s inp)]
    rfl

/-- Witness for C6: a concrete ready tick with a failing Optimize throws,
publishes nothing, and ends with Optimize then Print. -/
theorem c6_optimize_failure_witness :
    (Update rdyState failTick).outcome = TickOutcome.threw ∧
      Event.publish ∉ (Update rdyState failTick).events ∧
      List.count Event.optimize (Update rdyState failTick).events = 1 ∧
      (Update rdyState failTick).events
        = baseEvents rdyState failTick ++ [Event.optimize, Event.printDiag] :=
  c6_optimize_failure rdyState failTick (by decide) (by decide)

/-- Claim C7.  A tick installing a new marker layout ends not ready and
clears gotInitialGuess, and every subsequent tick on which the configuration
source returns no fresh prior also ends not ready. -/
theorem c7_layout_forces_not_ready (s : RunnerState) (inp : TickInput)
    (rest : List TickInput) (hl : inp.layout.isSome = true)
    (hrest : ∀ i ∈ rest, i.prior = none) :
    (Update s inp).outcome = TickOutcome.notReady ∧
    (Update s inp).state.gotInitialGuess = false ∧
    ∀ o ∈ runOutcomes (Update s inp).state rest, o = TickOutcome.notReady := by
  have step := layout_tick s inp hl
  exact ⟨step.1, step.2, noGig_run rest _ step.2 hrest⟩

/-- Witness for C7: from a state that was ready, a concrete layout tick and a
following prior-free tick both end not ready. -/
theorem c7_layout_forces_not_ready_witness :
    (Update rdyState layoutTick).outcome = TickOutcome.notReady ∧
      (Update rdyState layoutTick).state.gotInitialGuess = false ∧
      ∀ o ∈ runOutcomes (Update rdyState layoutTick).state [noPriorTick],
        o = TickOutcome.notReady :=
  c7_layout_forces_not_ready rdyState layoutTick [noPriorTick] (by decide) (by decide)

/-- Claim C8.  Every odometry sample of a tick is forwarded to AddOdometry
exactly once and in order, for every state and every tick input (hence
regardless of gotInitialGuess, camera readiness, or its timestamp). -/
theorem c8_odometry_unconditional (s : RunnerState) (inp : TickInput) :
    List.filterMap odoEx (Update s inp).events = inp.odom := by
  show List.filterMap odoEx (baseEvents s inp ++ tailEvents s inp) = inp.odom
  rw [List.filterMap_append, baseEvents_odoEvs, tailEvents_odoEvs, List.append_nil]

/-- Claim C9.  With no path argument the default configuration path is used,
with exactly one the given path is used, and with two or more the process
exits with status -1 (nonzero) before the tick loop. -/
theorem c9_argument_dispatch :
    mainStartup [] = Except.ok "test/resources/simulator.json" ∧
    (∀ p, mainStartup [p] = Except.ok p) ∧
    (∀ a b rest, mainStartup (a :: b :: rest) = Except.error (-1) ∧ (-1 : Int) ≠ 0) := by
  exact ⟨rfl, fun p => rfl, fun a b rest => ⟨rfl, by decide⟩⟩

/-- Claim C10.  When a prior and a layout arrive on the same tick, the prior
is consumed first (a Reset precedes the layout installation in the trace,
and only when gotInitialGuess was false), the tick ends with
gotInitialGuess false and not ready, and every later tick without a fresh
prior (NewPosePrior returns a value only on change, so the consumed prior is
not re-delivered) also ends not ready. -/
theorem c10_prior_before_layout (s : RunnerState) (p : PosePrior) (l : Nat)
    (inp : TickInput) (rest : List TickInput)
    (hp : inp.prior = some p) (hl : inp.layout = some l)
    (hrest : ∀ i ∈ rest, i.prior = none) :
    (postConfig s inp).2 =
      (if s.gotInitialGuess then [] else [Event.reset p.pose p.noise p.time]) ++
        [Event.setLayout l] ∧
    (∃ t, (Update s inp).events = (postConfig s inp).2 ++ t) ∧
    (Update s inp).state.gotInitialGuess = false ∧
    (Update s inp).outcome = TickOutcome.notReady ∧
    ∀ o ∈ runOutcomes (Update s inp).state rest, o = TickOutcome.notReady := by
  have hl2 : inp.layout.isSome = true := by rw [hl]; rfl
  have step := layout_tick s inp hl2
  refine ⟨?_, ?_, step.2, step.1, noGig_run rest _ step.2 hrest⟩
  · rw [show (postConfig s inp).2
        = (configPhase s.gotInitialGuess inp.prior inp.layout).2 from rfl,
      configPhase_snd, hp, hl]
  · refine ⟨(postOdom s inp).2 ++ (postCams s inp).2.2 ++ tailEvents s inp, ?_⟩
    show baseEvents s inp ++ tailEvents s inp = _
    rw [baseEvents]
    simp [List.append_assoc]

/-- Witness for C10: from a fresh state, a concrete tick carrying both a
prior and a layout resets first, installs the layout, ends not ready, and a
following prior-free tick is also not ready. -/
theorem c10_prior_before_layout_witness :
    (postConfig wState bothTick).2 =
      (if wState.gotInitialGuess then []
       else [Event.reset (5 : Nat) (6 : Nat) (7 : Nat)]) ++ [Event.setLayout 9] ∧
      (∃ t, (Update wState bothTick).events = (postConfig wState bothTick).2 ++ t) ∧
      (Update wState bothTick).state.gotInitialGuess = false ∧
      (Update wState bothTick).outcome = TickOutcome.notReady ∧
      ∀ o ∈ runOutcomes (Update wState bothTick).state [noPriorTick],
        o = TickOutcome.notReady :=
  c10_prior_before_layout wState ⟨5, 6, 7⟩ 9 bothTick [noPriorTick] rfl rfl (by decide)

/-- Witness for C4: the watermark of the concrete three-tick run equals the
running maximum 400 of its odometry timestamps and does not decrease when a
further tick is appended. -/
theorem c4_watermark_witness :
    (runState bugStart bugTicks).lastOdomTimestamp
        = List.foldl max bugStart.lastOdomTimestamp (odomTimestamps bugTicks) ∧
      (runState bugStart bugTicks).lastOdomTimestamp
        ≤ (runState bugStart (bugTicks ++ [noPriorTick])).lastOdomTimestamp :=
  c4_watermark bugStart bugTicks noPriorTick

/-- Witness for C8: the concrete ready tick forwards exactly its one odometry
sample. -/
theorem c8_odometry_unconditional_witness :
    List.filterMap odoEx (Update wState rdyTick).events = rdyTick.odom :=
  c8_odometry_unconditional wState rdyTick

/-- Witness for C9: two path arguments yield the error exit status -1. -/
theorem c9_argument_dispatch_witness :
    mainStartup ["a", "b"] = Except.error (-1) ∧ (-1 : Int) ≠ 0 :=
  c9_argument_dispatch.2.2 "a" "b" []
